import Mathlib

/-!
Shallow embedding, in Lean 4, of the fscad module (src/fscad.py): a thin
convenience layer over the Fusion 360 scripting object model.  Host objects
(points, vectors, bounding boxes, bodies, sketches, occurrences, matrices)
become explicit Lean data; host kernel calls whose results the code merely
threads through (measurement, brep creation, extrusion output) are recorded
as data fields on the modelled objects; Python exceptions become an
`Except` error channel.  Numbers are modelled as exact rationals.
-/

set_option autoImplicit false

namespace FScad

/-- A Python-level failure surfaced by the code under study.
`typeError` models e.g. calling `None` or dividing `None` by a number;
`attributeError` models attribute access on `None`;
`indexError` models indexing an empty list;
`unboundLocalError` models reading a local variable never assigned;
`hostError` models a failure raised inside the Fusion host kernel;
`valueError` models an explicit `raise ValueError(message)`. -/
inductive PyError where
  | typeError
  | attributeError
  | indexError
  | unboundLocalError
  | hostError
  | valueError (message : String)
deriving DecidableEq, Repr

/-- `adsk.core.Point3D`: a 3-d point with rational coordinates. -/
structure Point3D where
  x : ℚ
  y : ℚ
  z : ℚ
deriving DecidableEq, Repr

/-- `Point3D.asArray()[i]`: the coordinates of a point as a 3-element array. -/
def Point3D.asArray (p : Point3D) : Fin 3 → ℚ
  | 0 => p.x
  | 1 => p.y
  | 2 => p.z

/-- `adsk.core.OrientedBoundingBox3D` as produced by
`measureManager.getOrientedBoundingBox(body, xAxis, yAxis)`: a center point
plus extents along the two reference directions and their cross product. -/
structure OrientedBoundingBox3D where
  centerPoint : Point3D
  length : ℚ
  width : ℚ
  height : ℚ
deriving DecidableEq, Repr

/-- `adsk.core.BoundingBox3D`: an axis-aligned box given by two corner points. -/
structure BoundingBox3D where
  minPoint : Point3D
  maxPoint : Point3D
deriving DecidableEq, Repr

/-- Host API `BoundingBox3D.combine(other)`: expand the box to contain the
other box, i.e. componentwise min of the min points and max of the max
points. -/
def BoundingBox3D.combine (b other : BoundingBox3D) : BoundingBox3D :=
  { minPoint :=
      { x := min b.minPoint.x other.minPoint.x
        y := min b.minPoint.y other.minPoint.y
        z := min b.minPoint.z other.minPoint.z }
    maxPoint :=
      { x := max b.maxPoint.x other.maxPoint.x
        y := max b.maxPoint.y other.maxPoint.y
        z := max b.maxPoint.z other.maxPoint.z } }

/-- The kinds of value `_convert_units` dispatches on: `None`, a
`Point3D`, a `Vector3D`, a tuple or list of numbers, or a bare number.
Numeric leaves are rationals. -/
inductive PyValue where
  | none
  | point3d (x y z : ℚ)
  | vector3d (x y z : ℚ)
  | tup (elems : List ℚ)
  | lst (elems : List ℚ)
  | scalar (v : ℚ)
deriving DecidableEq, Repr

/-- `_convert_units(value, convert)`: apply `convert` to every numeric leaf
of `value`, passing `None` through and preserving the structure. -/
def _convert_units (value : PyValue) (convert : ℚ → ℚ) : PyValue :=
  match value with
  | .none => .none
  | .point3d x y z => .point3d (convert x) (convert y) (convert z)
  | .vector3d x y z => .vector3d (convert x) (convert y) (convert z)
  | .tup elems => .tup (elems.map convert)
  | .lst elems => .lst (elems.map convert)
  | .scalar v => .scalar (convert v)

/-- `_mm(cm_value)`: internal (cm) to display (mm) units, multiplying every
numeric leaf by 10. -/
def _mm (cm_value : PyValue) : PyValue :=
  _convert_units cm_value (fun value => value * 10)

/-- `_cm(mm_value)`: display (mm) to internal (cm) units, dividing every
numeric leaf by 10. -/
def _cm (mm_value : PyValue) : PyValue :=
  _convert_units mm_value (fun value => value / 10)

/-- Scalar case of `_mm`: what `_mm` does to a bare number. -/
def _mm_scalar (cm_value : ℚ) : ℚ := cm_value * 10

/-- Scalar case of `_cm`: what `_cm` does to a bare number. -/
def _cm_scalar (mm_value : ℚ) : ℚ := mm_value / 10

/-- The structural shape of a `PyValue`, forgetting the numeric leaves:
used to state that unit conversion preserves structure. -/
inductive PyShape where
  | none
  | point3d
  | vector3d
  | tup (n : ℕ)
  | lst (n : ℕ)
  | scalar
deriving DecidableEq, Repr

/-- Shape of a value: which constructor it uses, and sequence length. -/
def PyValue.shape : PyValue → PyShape
  | .none => .none
  | .point3d _ _ _ => .point3d
  | .vector3d _ _ _ => .vector3d
  | .tup elems => .tup elems.length
  | .lst elems => .lst elems.length
  | .scalar _ => .scalar

/-- The numeric leaves of a value, in order. -/
def PyValue.leaves : PyValue → List ℚ
  | .none => []
  | .point3d x y z => [x, y, z]
  | .vector3d x y z => [x, y, z]
  | .tup elems => elems
  | .lst elems => elems
  | .scalar v => [v]

/-- `adsk.fusion.BRepBody`: a solid (or wire) body.  `id` identifies the
host object; `obb` records the answer the host measurement manager gives
for `getOrientedBoundingBox(body, xAxis, yAxis)` (with `Option.none`
standing for a host-side measurement failure). -/
structure BRepBody where
  id : ℕ
  obb : Option OrientedBoundingBox3D
deriving DecidableEq, Repr

/-- `adsk.fusion.Sketch`: a 2-d sketch.  `profiles` is the list of profile
identifiers of `sketch.profiles`; `wireBody` records the wire body the host
`TemporaryBRepManager.createWireFromCurves` produces for the curves of the
sketch (used by `_sketch_to_wire_body`); `extrudeBodies` records the bodies
the host extrude feature produces when `_extrude` extrudes the profiles of
this sketch. -/
structure Sketch where
  name : String
  profiles : List ℕ
  wireBody : BRepBody
  extrudeBodies : List BRepBody
deriving DecidableEq, Repr

/-- `adsk.core.Matrix3D`, modelled syntactically: the code under study only
ever creates identity matrices, translation matrices, single-axis rotation
matrices about a pivot, inverts matrices and composes them with
`transformBy`, so a matrix is represented by the tree of those operations.
`composed a b` is the result of `a.transformBy(b)`; `rotationX angle c` is
the result of `setToRotation(math.radians(angle), Vector3D.create(1, 0, 0),
c)` on a fresh matrix, and likewise for the other two axes. -/
inductive Matrix3D where
  | identity
  | translationBy (x y z : ℚ)
  | rotationX (degrees : ℚ) (center : Point3D)
  | rotationY (degrees : ℚ) (center : Point3D)
  | rotationZ (degrees : ℚ) (center : Point3D)
  | inverted (m : Matrix3D)
  | composed (m other : Matrix3D)
deriving DecidableEq, Repr

/-- `adsk.fusion.Occurrence`: a placed instance of a component within the
scene graph.  `id` identifies the host object, `transform` is its placement
matrix, `bRepBodies` the solid bodies directly owned by it, `sketches` the
sketches of its component, `childOccurrences` its child occurrences in
order, and `isLightBulbOn` its visibility flag. -/
inductive Occurrence where
  | mk (id : ℕ) (transform : Matrix3D) (bRepBodies : List BRepBody)
      (sketches : List Sketch) (childOccurrences : List Occurrence)
      (isLightBulbOn : Bool)
deriving Repr

/-- Host identity of an occurrence. -/
def Occurrence.id : Occurrence → ℕ
  | .mk i _ _ _ _ _ => i

/-- Placement transform of an occurrence. -/
def Occurrence.transform : Occurrence → Matrix3D
  | .mk _ t _ _ _ _ => t

/-- Bodies directly owned by an occurrence. -/
def Occurrence.bRepBodies : Occurrence → List BRepBody
  | .mk _ _ bs _ _ _ => bs

/-- Sketches of the component of an occurrence. -/
def Occurrence.sketches : Occurrence → List Sketch
  | .mk _ _ _ ss _ _ => ss

/-- Child occurrences, in iteration order. -/
def Occurrence.childOccurrences : Occurrence → List Occurrence
  | .mk _ _ _ _ cs _ => cs

/-- Visibility flag of an occurrence. -/
def Occurrence.isLightBulbOn : Occurrence → Bool
  | .mk _ _ _ _ _ b => b

/-- `occurrence.transform = m`: the same occurrence (same host identity and
contents) with its placement transform replaced. -/
def Occurrence.setTransform : Occurrence → Matrix3D → Occurrence
  | .mk i _ bs ss cs b, m => .mk i m bs ss cs b

/-- The state of the active design the module mutates through the host:
the occurrences under the root component, a counter for fresh host object
identities, and the number of snapshots in `design().snapshots`. -/
structure Design where
  rootOccurrences : List Occurrence
  nextId : ℕ
  snapshots : ℕ
deriving Repr

mutual

/-- `_occurrence_bodies(occurrence)`: the bodies directly owned by the
occurrence followed by, for each child with its light bulb on, the bodies
of that child collected recursively.  Children with the light bulb off are
skipped entirely. -/
def _occurrence_bodies : Occurrence → List BRepBody
  | .mk _ _ bodies _ children _ => bodies ++ _occurrence_bodies_of_children children

/-- The `for child in occurrence.childOccurrences` loop of
`_occurrence_bodies`. -/
def _occurrence_bodies_of_children : List Occurrence → List BRepBody
  | [] => []
  | child :: rest =>
      (if child.isLightBulbOn then _occurrence_bodies child else []) ++
        _occurrence_bodies_of_children rest

end

mutual

/-- `_occurrence_sketches(occurrence)`: the sketches of the component of
the occurrence (each re-created for the assembly context when nested — a
host operation modelled as the identity on the sketch data), followed by
the sketches of each child whose light bulb is on, recursively. -/
def _occurrence_sketches : Occurrence → List Sketch
  | .mk _ _ _ sketches children _ => sketches ++ _occurrence_sketches_of_children children

/-- The `for child in occurrence.childOccurrences` loop of
`_occurrence_sketches`. -/
def _occurrence_sketches_of_children : List Occurrence → List Sketch
  | [] => []
  | child :: rest =>
      (if child.isLightBulbOn then _occurrence_sketches child else []) ++
        _occurrence_sketches_of_children rest

end

/-- Host call `measureManager.getOrientedBoundingBox(body, vector1,
vector2)` with the world X and Y axes as reference directions: returns the
oriented bounding box recorded on the body, or raises a host error. -/
def getOrientedBoundingBox (body : BRepBody) : Except PyError OrientedBoundingBox3D :=
  match body.obb with
  | some oriented => .ok oriented
  | Option.none => .error .hostError

/-- `_oriented_bounding_box_to_bounding_box(oriented)`: the axis-aligned
box whose corners are center minus and plus half of
(length, width, height). -/
def _oriented_bounding_box_to_bounding_box
    (oriented : OrientedBoundingBox3D) : BoundingBox3D :=
  { minPoint :=
      { x := oriented.centerPoint.x - oriented.length / 2
        y := oriented.centerPoint.y - oriented.width / 2
        z := oriented.centerPoint.z - oriented.height / 2 }
    maxPoint :=
      { x := oriented.centerPoint.x + oriented.length / 2
        y := oriented.centerPoint.y + oriented.width / 2
        z := oriented.centerPoint.z + oriented.height / 2 } }

/-- `_sketch_to_wire_body(sketch)`: the wire body the host brep manager
builds from the world geometry of the sketch curves; the host output is the
`wireBody` recorded on the sketch. -/
def _sketch_to_wire_body (sketch : Sketch) : BRepBody :=
  sketch.wireBody

/-- Body of the `for body in bodies` loop of `_get_exact_bounding_box`:
measure the body, convert to an axis-aligned box, and start or extend the
running combined box. -/
def _bounding_box_step (bounding_box : Option BoundingBox3D) (body : BRepBody) :
    Except PyError (Option BoundingBox3D) := do
  let oriented ← getOrientedBoundingBox body
  let body_bounding_box := _oriented_bounding_box_to_bounding_box oriented
  match bounding_box with
  | Option.none => pure (some body_bounding_box)
  | some bb => pure (some (bb.combine body_bounding_box))

/-- `_get_exact_bounding_box(occurrence)`: collect the visible bodies plus
one wire body per visible sketch, measure each and combine the resulting
axis-aligned boxes.  When the collection is empty no measurement happens
and the initial `None` is returned unchanged. -/
def _get_exact_bounding_box (occurrence : Occurrence) :
    Except PyError (Option BoundingBox3D) :=
  let bodies := _occurrence_bodies occurrence ++
    (_occurrence_sketches occurrence).map _sketch_to_wire_body
  bodies.foldlM _bounding_box_step Option.none

/-- The argument of `minAt`/`maxAt`/`midAt`: either a constant coordinate
or a per-axis-index callback (`callable(value)` in the source). -/
inductive PlacementValue where
  | const (v : ℚ)
  | callback (f : Fin 3 → ℚ)

/-- `_get_placement_value(value, coordinate_index)`: call the value with
the axis index when it is callable, then convert to internal units. -/
def _get_placement_value (value : PlacementValue) (coordinate_index : Fin 3) : ℚ :=
  match value with
  | .callback f => _cm_scalar (f coordinate_index)
  | .const v => _cm_scalar v

/-- The display-unit value a placement argument denotes at an axis index:
the constant itself, or the callback applied to the index. -/
def PlacementValue.eval (value : PlacementValue) (coordinate_index : Fin 3) : ℚ :=
  match value with
  | .callback f => f coordinate_index
  | .const v => v

/-- A placement function as `place` consumes it: given the axis index and
the (possibly absent) bounding box computed by `_get_exact_bounding_box`,
either a translation offset in display units or the Python failure raised
inside the lambda. -/
def PlacementFn : Type :=
  Fin 3 → Option BoundingBox3D → Except PyError ℚ

/-- `minAt(value)`: a placement lambda returning
`_mm(_get_placement_value(value, i) - bounding_box.minPoint.asArray()[i])`.
Reading `minPoint` on an absent (`None`) bounding box raises an
`AttributeError`. -/
def minAt (value : PlacementValue) : PlacementFn :=
  fun coordinate_index bounding_box =>
    match bounding_box with
    | Option.none => .error .attributeError
    | some bb => .ok (_mm_scalar
        (_get_placement_value value coordinate_index - bb.minPoint.asArray coordinate_index))

/-- `maxAt(value)`: as `minAt` with `maxPoint` in place of `minPoint`. -/
def maxAt (value : PlacementValue) : PlacementFn :=
  fun coordinate_index bounding_box =>
    match bounding_box with
    | Option.none => .error .attributeError
    | some bb => .ok (_mm_scalar
        (_get_placement_value value coordinate_index - bb.maxPoint.asArray coordinate_index))

/-- `midAt(value)`: as `minAt` with the midpoint
`(minPoint[i] + maxPoint[i]) / 2` in place of the minimum. -/
def midAt (value : PlacementValue) : PlacementFn :=
  fun coordinate_index bounding_box =>
    match bounding_box with
    | Option.none => .error .attributeError
    | some bb => .ok (_mm_scalar
        (_get_placement_value value coordinate_index -
          (bb.minPoint.asArray coordinate_index + bb.maxPoint.asArray coordinate_index) / 2))

/-- `keep()`: the lambda `lambda *_: 0`, ignoring both arguments. -/
def keep : PlacementFn :=
  fun _ _ => .ok 0

/-- `translate(occurrence, x, y, z)`: a no-op when all three deltas are
zero; otherwise compose a translation by the internal-unit vector onto the
existing transform of the occurrence and add a snapshot.  The
`bodies_to_move` collection the source builds is never used, so it is not
modelled. -/
def translate (occurrence : Occurrence) (design : Design) (x y z : ℚ) :
    Occurrence × Design :=
  if x = 0 ∧ y = 0 ∧ z = 0 then
    (occurrence, design)
  else
    let transform := Matrix3D.translationBy (_cm_scalar x) (_cm_scalar y) (_cm_scalar z)
    let original_transform := Matrix3D.composed occurrence.transform transform
    (occurrence.setTransform original_transform,
      { design with snapshots := design.snapshots + 1 })

/-- The pivot `rotate` uses: the origin when `center` is `None`, otherwise
`_cm(Point3D.create(*center))`. -/
def rotationCenter (center : Option (ℚ × ℚ × ℚ)) : Point3D :=
  match center with
  | Option.none => { x := 0, y := 0, z := 0 }
  | some (cx, cy, cz) => { x := _cm_scalar cx, y := _cm_scalar cy, z := _cm_scalar cz }

/-- `rotate(occurrence, x, y, z, center)`: a no-op when all three angles
are zero; otherwise build single-axis rotations about the pivot, invert the
Y and Z rotations, fold them onto the X rotation with `transformBy`, apply
the result to the existing transform of the occurrence, and add a snapshot.
The unused `bodies_to_rotate` collection is not modelled. -/
def rotate (occurrence : Occurrence) (design : Design) (x y z : ℚ)
    (center : Option (ℚ × ℚ × ℚ)) : Occurrence × Design :=
  if x = 0 ∧ y = 0 ∧ z = 0 then
    (occurrence, design)
  else
    let c := rotationCenter center
    let transform1 := Matrix3D.rotationX x c
    let transform2 := Matrix3D.rotationY y c
    let transform3 := Matrix3D.rotationZ z c
    let transform2 := Matrix3D.inverted transform2
    let transform3 := Matrix3D.inverted transform3
    let transform1 := Matrix3D.composed transform1 transform2
    let transform1 := Matrix3D.composed transform1 transform3
    let transform := Matrix3D.composed occurrence.transform transform1
    (occurrence.setTransform transform,
      { design with snapshots := design.snapshots + 1 })

/-- Evaluate one placement argument of `place` at an axis index:
`x_placement(coordinate_index, bounding_box)`.  A `None` placement is not
callable, so calling it raises a `TypeError` before the lambda (or the
bounding box) is ever consulted. -/
def callPlacement (placement : Option PlacementFn) (coordinate_index : Fin 3)
    (bounding_box : Option BoundingBox3D) : Except PyError ℚ :=
  match placement with
  | Option.none => .error .typeError
  | some f => f coordinate_index bounding_box

/-- `place(occurrence, x_placement, y_placement, z_placement)`: compute the
exact bounding box, evaluate the three placement arguments at axis indices
0, 1, 2 against it, and translate the occurrence by the three offsets. -/
def place (occurrence : Occurrence) (design : Design)
    (x_placement y_placement z_placement : Option PlacementFn) :
    Except PyError (Occurrence × Design) := do
  let bounding_box ← _get_exact_bounding_box occurrence
  let dx ← callPlacement x_placement 0 bounding_box
  let dy ← callPlacement y_placement 1 bounding_box
  let dz ← callPlacement z_placement 2 bounding_box
  pure (translate occurrence design dx dy dz)

/-- The `for sketch in sketches` loop of `loft`, collecting the loft
sections: a sketch with more than one profile raises the usage
`ValueError` naming the sketch; otherwise `sketch.profiles.item(0)` is
added — on a sketch with no profiles at all that host item lookup fails
with a host error, not with the usage error. -/
def loftSectionsOf : List Sketch → Except PyError (List ℕ)
  | [] => .ok []
  | sketch :: rest =>
      if sketch.profiles.length > 1 then
        .error (.valueError ("Sketch " ++ sketch.name ++ " contains multiple profiles"))
      else
        match sketch.profiles.head? with
        | Option.none => .error .hostError
        | some profile => do
            let sections ← loftSectionsOf rest
            pure (profile :: sections)

/-- `loft(*sketches)`: validate and collect one profile per input sketch,
then create the loft feature from the collected sections (the created
feature is represented by its section list). -/
def loft (sketches : List Sketch) : Except PyError (List ℕ) :=
  loftSectionsOf sketches

/-- `_extrude(sketch, amount)`: extrude all profiles of the sketch with a
host extrude feature; the bodies of the resulting feature are the
`extrudeBodies` recorded on the sketch. -/
def _extrude (sketch : Sketch) : List BRepBody :=
  sketch.extrudeBodies

/-- A placeholder body for sketches whose host-produced content is not
further inspected by the claims. -/
def placeholderBody : BRepBody :=
  { id := 0, obb := Option.none }

/-- `_sketch_union(sketches, name)`: extrude every sketch by 1 and collect
the extruded bodies.  Only when more than one body exists is the local
variable `combine_feature` assigned (by the combine feature creation); the
code afterwards unconditionally reads `combine_feature.parentComponent`, so
with exactly one extruded body that read raises `UnboundLocalError`, and
with no extruded body at all the earlier `bodies[0]` in the else branch
raises `IndexError` first.  On the successful path the temporary sketch is
intersected with the result bodies and copied into a fresh sketch on the
root component, which is renamed when a name is given; those host
operations are abstracted into the returned sketch value. -/
def _sketch_union (sketches : List Sketch) (name : Option String) :
    Except PyError Sketch :=
  let bodies := sketches.flatMap (fun sketch => _extrude sketch)
  if bodies.length > 1 then
    let new_sketch : Sketch :=
      { name := match name with
          | some n => n
          | Option.none => "Sketch"
        profiles := []
        wireBody := placeholderBody
        extrudeBodies := [] }
    .ok new_sketch
  else
    match bodies with
    | [] => .error .indexError
    | _ :: _ => .error .unboundLocalError

/-- The sketch branch of `union(*entities, name)`: when the first entity is
a `Sketch` the call dispatches to `_sketch_union`. -/
def union (entities : List Sketch) (name : Option String) :
    Except PyError Sketch :=
  _sketch_union entities name

/-- `_create_component(*bodies, name)`: add a new occurrence holding a new
component of the given name under the root component, add the bodies to it
inside a base feature, and return the new occurrence.  The component name
attribute the source assigns is not part of the modelled occurrence
state. -/
def _create_component (bodies : List BRepBody) (_name : String)
    (design : Design) : Occurrence × Design :=
  let new_occurrence : Occurrence :=
    .mk design.nextId Matrix3D.identity bodies [] [] true
  (new_occurrence,
    { design with
        rootOccurrences := design.rootOccurrences ++ [new_occurrence]
        nextId := design.nextId + 1 })

/-- Host call `TemporaryBRepManager.createSphere(origin, radius)` with the
oriented bounding box the host would later measure for it. -/
def createSphere (radius : ℚ) : BRepBody :=
  { id := 0
    obb := some
      { centerPoint := { x := 0, y := 0, z := 0 }
        length := 2 * radius, width := 2 * radius, height := 2 * radius } }

/-- Host call `TemporaryBRepManager.createCylinderOrCone(origin, radius,
topPoint, topRadius)` with the oriented bounding box the host would later
measure for it. -/
def createCylinderOrCone (height radius radius2 : ℚ) : BRepBody :=
  { id := 0
    obb := some
      { centerPoint := { x := 0, y := 0, z := height / 2 }
        length := 2 * max radius radius2
        width := 2 * max radius radius2
        height := height } }

/-- Host call `TemporaryBRepManager.createBox(orientedBox)` for the box of
extents (x, y, z) centered at (x/2, y/2, z/2). -/
def createBox (x y z : ℚ) : BRepBody :=
  { id := 0
    obb := some
      { centerPoint := { x := x / 2, y := y / 2, z := z / 2 }
        length := x, width := y, height := z } }

/-- `sphere(radius, name)`: create the sphere body, wrap it in a new
component and mark its surface face.  The function body has no return
statement, so the Python call evaluates to `None`; the face marking adds
host attributes that are not modelled. -/
def sphere (radius : ℚ) (name : String) (design : Design) :
    Design × Option Occurrence :=
  let sphere_body := createSphere (_cm_scalar radius)
  let (_occurrence, design) := _create_component [sphere_body] name design
  (design, Option.none)

/-- `cylinder(height, radius, radius2, name)`: the first statement converts
the argument tuple with `_cm((height, radius, radius2))`, which maps
`value / 10` over the tuple elements; when `radius2` is left at its `None`
default this evaluates `None / 10` and raises a `TypeError` before any
geometry is created.  With a numeric `radius2` the cylinder-or-cone body is
created, wrapped in a new component and its faces marked, and the function
falls off the end, evaluating to `None`. -/
def cylinder (height radius : ℚ) (radius2 : Option ℚ) (name : String)
    (design : Design) : Except PyError (Design × Option Occurrence) :=
  match radius2 with
  | Option.none => .error .typeError
  | some r2 =>
      let height := _cm_scalar height
      let radius := _cm_scalar radius
      let radius2 := _cm_scalar r2
      let cylinder_body := createCylinderOrCone height radius radius2
      let (_occurrence, design) := _create_component [cylinder_body] name design
      .ok (design, Option.none)

/-- `box(x, y, z, name)`: convert the extents to internal units, create the
box body, wrap it in a new component, mark its six faces (host attributes,
not modelled), and return the new occurrence. -/
def box (x y z : ℚ) (name : String) (design : Design) :
    Design × Option Occurrence :=
  let x := _cm_scalar x
  let y := _cm_scalar y
  let z := _cm_scalar z
  let box_body := createBox x y z
  let (occurrence, design) := _create_component [box_body] name design
  (design, some occurrence)

/-- An empty design state: no occurrences, no snapshots. -/
def design0 : Design :=
  { rootOccurrences := [], nextId := 0, snapshots := 0 }

/-- A visible occurrence owning no bodies, no sketches and no children. -/
def emptyOccurrence : Occurrence :=
  .mk 0 Matrix3D.identity [] [] [] true

/-- A sketch whose `profiles` collection is empty. -/
def noProfileSketch : Sketch :=
  { name := "Empty", profiles := [], wireBody := placeholderBody, extrudeBodies := [] }

/-- A sketch containing two profiles. -/
def twoProfileSketch : Sketch :=
  { name := "Double", profiles := [1, 2], wireBody := placeholderBody, extrudeBodies := [] }

/-- A sketch whose extrusion yields exactly one body. -/
def oneBodySketch : Sketch :=
  { name := "Single", profiles := [1], wireBody := placeholderBody,
    extrudeBodies := [placeholderBody] }

/-- A sketch whose extrusion yields no body. -/
def zeroBodySketch : Sketch :=
  { name := "Hollow", profiles := [1], wireBody := placeholderBody, extrudeBodies := [] }

/-! ## Helper lemmas -/

theorem div_ten_mul_ten (x : ℚ) : x / 10 * 10 = x := by ring

theorem mul_ten_div_ten (x : ℚ) : x * 10 / 10 = x := by ring

theorem map_div_map_mul (es : List ℚ) :
    (es.map (fun v => v / 10)).map (fun v => v * 10) = es := by
  induction es with
  | nil => rfl
  | cons a t ih => simp [ih, div_ten_mul_ten]

theorem map_mul_map_div (es : List ℚ) :
    (es.map (fun v => v * 10)).map (fun v => v / 10) = es := by
  induction es with
  | nil => rfl
  | cons a t ih => simp [ih, mul_ten_div_ten]

theorem mm_cm (v : PyValue) : _mm (_cm v) = v := by
  cases v with
  | none => rfl
  | point3d x y z =>
      simp only [_mm, _cm, _convert_units]
      congr 1 <;> ring
  | vector3d x y z =>
      simp only [_mm, _cm, _convert_units]
      congr 1 <;> ring
  | tup es =>
      simp only [_mm, _cm, _convert_units, PyValue.tup.injEq]
      exact map_div_map_mul es
  | lst es =>
      simp only [_mm, _cm, _convert_units, PyValue.lst.injEq]
      exact map_div_map_mul es
  | scalar x =>
      simp only [_mm, _cm, _convert_units]
      congr 1
      ring

theorem cm_mm (v : PyValue) : _cm (_mm v) = v := by
  cases v with
  | none => rfl
  | point3d x y z =>
      simp only [_mm, _cm, _convert_units]
      congr 1 <;> ring
  | vector3d x y z =>
      simp only [_mm, _cm, _convert_units]
      congr 1 <;> ring
  | tup es =>
      simp only [_mm, _cm, _convert_units, PyValue.tup.injEq]
      exact map_mul_map_div es
  | lst es =>
      simp only [_mm, _cm, _convert_units, PyValue.lst.injEq]
      exact map_mul_map_div es
  | scalar x =>
      simp only [_mm, _cm, _convert_units]
      congr 1
      ring

theorem shape_convert_units (v : PyValue) (f : ℚ → ℚ) :
    (_convert_units v f).shape = v.shape := by
  cases v <;> simp [_convert_units, PyValue.shape]

theorem leaves_convert_units (v : PyValue) (f : ℚ → ℚ) :
    (_convert_units v f).leaves = v.leaves.map f := by
  cases v <;> simp [_convert_units, PyValue.leaves]

theorem occurrence_bodies_of_children_eq (cs : List Occurrence) :
    _occurrence_bodies_of_children cs =
      (cs.filter (fun child => child.isLightBulbOn)).flatMap _occurrence_bodies := by
  induction cs with
  | nil => simp [_occurrence_bodies_of_children]
  | cons c rest ih =>
      by_cases h : c.isLightBulbOn = true <;>
        simp [_occurrence_bodies_of_children, h, ih]

theorem id_setTransform (occ : Occurrence) (m : Matrix3D) :
    (occ.setTransform m).id = occ.id := by
  cases occ
  rfl

/-! ## Claim theorems -/

/-- C1 (counterexample): on a node that owns zero bodies and zero sketches,
`_get_exact_bounding_box` does not propagate a host error: it performs no
measurement at all and returns normally, with `None` in place of a box. -/
theorem exact_bounding_box_empty_is_ok_counterexample :
    _occurrence_bodies emptyOccurrence = [] ∧
    _occurrence_sketches emptyOccurrence = [] ∧
    _get_exact_bounding_box emptyOccurrence = .ok Option.none :=
  ⟨rfl, rfl, rfl⟩

/-- C1 (amended): for every scene node whose traversal collects zero bodies
and zero sketches, `_get_exact_bounding_box` returns `None` without any
host error; the failure the spec describes arises only later, in callers
that dereference the `None` result. -/
theorem exact_bounding_box_empty_returns_none (occ : Occurrence)
    (h1 : _occurrence_bodies occ = []) (h2 : _occurrence_sketches occ = []) :
    _get_exact_bounding_box occ = .ok Option.none := by
  unfold _get_exact_bounding_box
  rw [h1, h2]
  rfl

/-- C1 witness: the amended theorem applied to the concrete empty node. -/
theorem exact_bounding_box_empty_returns_none_witness :
    _occurrence_bodies emptyOccurrence = [] ∧
    _occurrence_sketches emptyOccurrence = [] ∧
    _get_exact_bounding_box emptyOccurrence = .ok Option.none :=
  ⟨rfl, rfl, exact_bounding_box_empty_returns_none emptyOccurrence rfl rfl⟩

/-- C2 (confirmed): for every axis index and every bounding box (the box in
internal units as `_get_exact_bounding_box` produces it, its coordinates
written in display units through `_mm_scalar`), `minAt v` returns
`v - box.min[i]`, `maxAt v` returns `v - box.max[i]`, `midAt v` returns
`v - (box.min[i] + box.max[i]) / 2`, all in display units, with `v` a
constant or a per-axis-index callback evaluated at the index; `keep`
returns 0 for every axis regardless of the box. -/
theorem placement_offsets (value : PlacementValue) (i : Fin 3)
    (bb : BoundingBox3D) (obb : Option BoundingBox3D) :
    minAt value i (some bb) =
      .ok (value.eval i - _mm_scalar (bb.minPoint.asArray i)) ∧
    maxAt value i (some bb) =
      .ok (value.eval i - _mm_scalar (bb.maxPoint.asArray i)) ∧
    midAt value i (some bb) =
      .ok (value.eval i -
        _mm_scalar ((bb.minPoint.asArray i + bb.maxPoint.asArray i) / 2)) ∧
    keep i obb = .ok 0 := by
  refine ⟨?_, ?_, ?_, rfl⟩ <;>
    cases value <;>
    simp only [minAt, maxAt, midAt, _get_placement_value, PlacementValue.eval,
      _mm_scalar, _cm_scalar, Except.ok.injEq] <;>
    ring

/-- C3 (confirmed): `_occurrence_bodies` returns exactly the bodies
directly owned by the node followed by, for each child in order, the
recursive result, restricted to children whose light bulb is on; and a body
is in the result exactly when it is directly owned or reachable through a
child whose light bulb is on. -/
theorem occurrence_bodies_spec (occ : Occurrence) (b : BRepBody) :
    _occurrence_bodies occ =
      occ.bRepBodies ++
        (occ.childOccurrences.filter (fun child => child.isLightBulbOn)).flatMap
          _occurrence_bodies ∧
    (b ∈ _occurrence_bodies occ ↔
      b ∈ occ.bRepBodies ∨
        ∃ child, child ∈ occ.childOccurrences ∧ child.isLightBulbOn = true ∧
          b ∈ _occurrence_bodies child) := by
  obtain ⟨i, t, bs, ss, cs, vis⟩ := occ
  have heq : _occurrence_bodies (.mk i t bs ss cs vis) =
      bs ++ (cs.filter (fun child => child.isLightBulbOn)).flatMap _occurrence_bodies := by
    rw [_occurrence_bodies, occurrence_bodies_of_children_eq]
  refine ⟨heq, ?_⟩
  rw [heq]
  simp only [List.mem_append, List.mem_flatMap, List.mem_filter,
    Occurrence.bRepBodies, Occurrence.childOccurrences]
  tauto

/-- C4 (confirmed): `_mm` and `_cm` are mutually inverse (exactly, over the
rationals), map `None` to `None`, preserve the structure of the value, and
multiply respectively divide every numeric leaf by 10. -/
theorem convert_units_spec (v : PyValue) :
    _mm (_cm v) = v ∧ _cm (_mm v) = v ∧
    _cm PyValue.none = PyValue.none ∧ _mm PyValue.none = PyValue.none ∧
    (_cm v).shape = v.shape ∧ (_mm v).shape = v.shape ∧
    (_mm v).leaves = v.leaves.map (fun x => x * 10) ∧
    (_cm v).leaves = v.leaves.map (fun x => x / 10) :=
  ⟨mm_cm v, cm_mm v, rfl, rfl,
    shape_convert_units v (fun x => x / 10), shape_convert_units v (fun x => x * 10),
    leaves_convert_units v (fun x => x * 10), leaves_convert_units v (fun x => x / 10)⟩

/-- C5 (confirmed): `translate` with all deltas zero and `rotate` with all
angles zero return the occurrence and the design state unchanged (same
node, same transform, no snapshot); with any non-zero delta or angle
exactly one snapshot is appended. -/
theorem transform_zero_noop_and_snapshot (occ : Occurrence) (d : Design)
    (x y z : ℚ) (center : Option (ℚ × ℚ × ℚ)) :
    translate occ d 0 0 0 = (occ, d) ∧
    rotate occ d 0 0 0 center = (occ, d) ∧
    (translate occ d x y z).2.snapshots =
      (if x = 0 ∧ y = 0 ∧ z = 0 then d.snapshots else d.snapshots + 1) ∧
    (rotate occ d x y z center).2.snapshots =
      (if x = 0 ∧ y = 0 ∧ z = 0 then d.snapshots else d.snapshots + 1) := by
  refine ⟨by simp [translate], by simp [rotate], ?_, ?_⟩ <;>
    by_cases h : x = 0 ∧ y = 0 ∧ z = 0 <;>
    simp [translate, rotate, h]

/-- C6 (counterexample): `place` with the x placement left `None` fails
with a `TypeError` (calling `None`); the axis is not treated as keep. -/
theorem place_none_placement_counterexample :
    place emptyOccurrence design0 Option.none (some keep) (some keep) =
      .error PyError.typeError :=
  rfl

/-- C6 (amended): whenever the bounding box computation itself succeeds, a
`place` call whose x placement is left `None` raises a `TypeError` because
`None` is not callable; a caller wanting no movement must pass `keep()`
explicitly. -/
theorem place_none_placement_raises_type_error (occ : Occurrence) (d : Design)
    (yp zp : Option PlacementFn) (bb : Option BoundingBox3D)
    (h : _get_exact_bounding_box occ = .ok bb) :
    place occ d Option.none yp zp = .error PyError.typeError := by
  unfold place
  rw [h]
  rfl

/-- C6 witness: the amended theorem applied to a concrete node. -/
theorem place_none_placement_raises_type_error_witness :
    _get_exact_bounding_box emptyOccurrence = .ok Option.none ∧
    place emptyOccurrence design0 Option.none (some keep) (some keep) =
      .error PyError.typeError :=
  ⟨rfl, place_none_placement_raises_type_error emptyOccurrence design0
    (some keep) (some keep) Option.none rfl⟩

/-- C7 (confirmed): for angles not all zero, `rotate` leaves the host
identity of the node unchanged and replaces its transform by the existing
transform composed with the X rotation about the pivot (the converted
explicit center, or the origin), then the inverted Y rotation, then the
inverted Z rotation, while adding one snapshot. -/
theorem rotate_builds_inverted_yz_composition (occ : Occurrence) (d : Design)
    (x y z : ℚ) (center : Option (ℚ × ℚ × ℚ))
    (h : ¬(x = 0 ∧ y = 0 ∧ z = 0)) :
    rotate occ d x y z center =
      (occ.setTransform (Matrix3D.composed occ.transform
        (Matrix3D.composed
          (Matrix3D.composed (Matrix3D.rotationX x (rotationCenter center))
            (Matrix3D.inverted (Matrix3D.rotationY y (rotationCenter center))))
          (Matrix3D.inverted (Matrix3D.rotationZ z (rotationCenter center))))),
       { d with snapshots := d.snapshots + 1 }) ∧
    (rotate occ d x y z center).1.id = occ.id := by
  have hr : rotate occ d x y z center =
      (occ.setTransform (Matrix3D.composed occ.transform
        (Matrix3D.composed
          (Matrix3D.composed (Matrix3D.rotationX x (rotationCenter center))
            (Matrix3D.inverted (Matrix3D.rotationY y (rotationCenter center))))
          (Matrix3D.inverted (Matrix3D.rotationZ z (rotationCenter center))))),
       { d with snapshots := d.snapshots + 1 }) := by
    simp [rotate, h]
  exact ⟨hr, by rw [hr]; exact id_setTransform occ _⟩

/-- C7 witness: the theorem applied at a concrete 90 degree X rotation. -/
theorem rotate_builds_inverted_yz_composition_witness :
    ¬((90 : ℚ) = 0 ∧ (0 : ℚ) = 0 ∧ (0 : ℚ) = 0) ∧
    (rotate emptyOccurrence design0 90 0 0 Option.none =
      (emptyOccurrence.setTransform (Matrix3D.composed emptyOccurrence.transform
        (Matrix3D.composed
          (Matrix3D.composed
            (Matrix3D.rotationX 90 (rotationCenter Option.none))
            (Matrix3D.inverted (Matrix3D.rotationY 0 (rotationCenter Option.none))))
          (Matrix3D.inverted (Matrix3D.rotationZ 0 (rotationCenter Option.none))))),
       { design0 with snapshots := design0.snapshots + 1 }) ∧
      (rotate emptyOccurrence design0 90 0 0 Option.none).1.id = emptyOccurrence.id) :=
  ⟨by norm_num,
    rotate_builds_inverted_yz_composition emptyOccurrence design0 90 0 0
      Option.none (by norm_num)⟩

/-- C8 (counterexample): a loft input sketch with zero profiles violates
the "exactly one profile" requirement, yet the failure is the host item
lookup, not the usage `ValueError` naming the sketch. -/
theorem loft_zero_profile_counterexample :
    noProfileSketch.profiles.length = 0 ∧
    loft [noProfileSketch] = .error PyError.hostError ∧
    loft [noProfileSketch] ≠
      .error (PyError.valueError
        ("Sketch " ++ noProfileSketch.name ++ " contains multiple profiles")) := by
  refine ⟨rfl, rfl, ?_⟩
  intro hcontra
  simp [loft, loftSectionsOf, noProfileSketch] at hcontra

/-- C8 (amended): an input sketch with more than one profile makes `loft`
fail with the usage `ValueError` naming the first such sketch, and no loft
feature is created; a sketch with zero profiles is not caught by this
validation and fails through the host instead. -/
theorem loft_multi_profile_usage_error (pre : List Sketch) (s : Sketch)
    (post : List Sketch) (hpre : ∀ t ∈ pre, t.profiles.length = 1)
    (hs : s.profiles.length > 1) :
    loft (pre ++ s :: post) =
      .error (PyError.valueError
        ("Sketch " ++ s.name ++ " contains multiple profiles")) := by
  induction pre with
  | nil =>
      simp only [List.nil_append, loft, loftSectionsOf, if_pos hs]
  | cons t rest ih =>
      have ht : t.profiles.length = 1 := hpre t (by simp)
      obtain ⟨a, ha⟩ := List.length_eq_one.mp ht
      have hrest : ∀ u ∈ rest, u.profiles.length = 1 :=
        fun u hu => hpre u (by simp [hu])
      have ihr := ih hrest
      simp only [loft] at ihr
      simp [loft, loftSectionsOf, ha, ihr]

/-- C8 witness: the amended theorem at a concrete two-profile sketch. -/
theorem loft_multi_profile_usage_error_witness :
    (∀ t ∈ ([] : List Sketch), t.profiles.length = 1) ∧
    twoProfileSketch.profiles.length > 1 ∧
    loft [twoProfileSketch] =
      .error (PyError.valueError
        ("Sketch " ++ twoProfileSketch.name ++ " contains multiple profiles")) :=
  ⟨by simp, by decide,
    loft_multi_profile_usage_error [] twoProfileSketch [] (by simp) (by decide)⟩

/-- C9 (counterexample): a sketch union whose extrusions yield zero bodies
(which is "at most one body") fails with an `IndexError` at `bodies[0]`,
before the unassigned combine-feature variable is ever read. -/
theorem sketch_union_zero_body_counterexample :
    (([zeroBodySketch].flatMap (fun sketch => _extrude sketch)).length = 0) ∧
    union [zeroBodySketch] Option.none = .error PyError.indexError ∧
    union [zeroBodySketch] Option.none ≠ .error PyError.unboundLocalError := by
  refine ⟨rfl, rfl, ?_⟩
  intro hcontra
  simp [union, _sketch_union, zeroBodySketch, _extrude] at hcontra

/-- C9 (amended): when the extrusions of the input sketches yield exactly
one body, the sketch branch of `union` raises `UnboundLocalError`: the
combine-feature variable is assigned only when more than one body exists
but is dereferenced unconditionally afterwards. -/
theorem sketch_union_single_body_unbound_local (sketches : List Sketch)
    (name : Option String)
    (h : (sketches.flatMap (fun sketch => _extrude sketch)).length = 1) :
    union sketches name = .error PyError.unboundLocalError := by
  obtain ⟨b, hb⟩ := List.length_eq_one.mp h
  simp [union, _sketch_union, hb]

/-- C9 witness: the amended theorem at a concrete one-body sketch. -/
theorem sketch_union_single_body_unbound_local_witness :
    (([oneBodySketch].flatMap (fun sketch => _extrude sketch)).length = 1) ∧
    union [oneBodySketch] Option.none = .error PyError.unboundLocalError :=
  ⟨rfl, sketch_union_single_body_unbound_local [oneBodySketch] Option.none rfl⟩

/-- C10 (counterexample): `cylinder` called with `radius2` left at its
`None` default does not return `None` after creating the component — it
raises a `TypeError` in the unit conversion of its argument tuple before
creating anything. -/
theorem cylinder_default_radius2_counterexample :
    cylinder 1 1 Option.none "Cylinder" design0 = .error PyError.typeError :=
  rfl

/-- C10 (amended): `sphere` creates its component yet returns `None`;
`cylinder` with a numeric `radius2` likewise completes and returns `None`
(with `radius2` omitted it raises a `TypeError` instead); `box` returns the
occurrence it appends to the design. -/
theorem primitive_constructor_returns (radius x y z hg r r2 : ℚ)
    (name : String) (d : Design) :
    (sphere radius name d).2 = Option.none ∧
    (sphere radius name d).1.rootOccurrences.length =
      d.rootOccurrences.length + 1 ∧
    (∃ d2, cylinder hg r (some r2) name d = .ok (d2, Option.none)) ∧
    (box x y z name d).2 = (box x y z name d).1.rootOccurrences.getLast? ∧
    (box x y z name d).2.isSome = true := by
  refine ⟨rfl, ?_, ⟨_, rfl⟩, ?_, rfl⟩
  · simp [sphere, _create_component]
  · simp [box, _create_component]

end FScad
